import Mathlib

/-!
Verification of the qutebrowser extension hook registry
(`src/qutebrowser/api/hook.py`).

The file under `src/` holds the five decorator front-ends
(`init`, `config_changed`, `before_load`, `load_started`,
`load_finished`).  Their shared helper `_add_module_info` calls
`importlib.import_module(func.__module__)` and
`loader.add_module_info(module)`; the `loader` module is not part of
`src/`, so the registry (get-or-create of a per-module `ModuleInfo`)
and the config-change filter matching are modelled from the spec where
noted.  Callbacks are embedded as abstract values carrying an identifier
and the name of their defining module (`func.__module__`, or `none`
when the defining module cannot be determined, i.e. when
`importlib.import_module` would fail).
-/

namespace HookRegistry

/-- A callback handed to a hook-declaration call.  `id` makes distinct
callbacks distinguishable; `moduleName` embeds the Python attribute
`func.__module__` as resolved by `importlib.import_module`: `none`
means the defining module cannot be determined. -/
structure Callback where
  id : Nat
  moduleName : Option String
deriving DecidableEq

/-- Embeds `loader.ModuleInfo`: the per-module record of registered
hooks.  Field names follow the source: `init_hook` is the optional
single init hook, the four list fields are the append-only hook lists
of `hook.py`. -/
structure ModuleInfo where
  init_hook : Option Callback
  config_changed_hooks : List (Option String × Callback)
  before_load_hooks : List Callback
  load_started_hooks : List Callback
  load_finished_hooks : List Callback
deriving DecidableEq

/-- Modelled from the spec: a freshly created, empty HookSet
(`ModuleInfo()` with no hooks registered). -/
def ModuleInfo.empty : ModuleInfo :=
  { init_hook := none
    config_changed_hooks := []
    before_load_hooks := []
    load_started_hooks := []
    load_finished_hooks := [] }

/-- Modelled from the spec: the process-wide ModuleRegistry, a mapping
from module identity (the fully-qualified module name) to its
`ModuleInfo`, kept in registration order.  `loader.add_module_info` is
absent from `src/`; the spec describes it as a lazily-creating,
order-preserving registry. -/
structure ModuleRegistry where
  entries : List (String × ModuleInfo)
deriving DecidableEq

/-- First value stored under a key in an association list; helper for
the registry lookup. -/
def lookupInfo (idt : String) : List (String × ModuleInfo) → Option ModuleInfo
  | [] => none
  | (k, v) :: rest => if k = idt then some v else lookupInfo idt rest

/-- Modelled from the spec: non-creating lookup (`get`). -/
def ModuleRegistry.get (reg : ModuleRegistry) (idt : String) : Option ModuleInfo :=
  lookupInfo idt reg.entries

/-- Modelled from the spec: `getOrCreate(identity)` returns the
existing HookSet for the identity or creates and stores an empty one,
appending the new entry in registration order. -/
def ModuleRegistry.getOrCreate (reg : ModuleRegistry) (idt : String) :
    ModuleRegistry × ModuleInfo :=
  match reg.get idt with
  | some info => (reg, info)
  | none => (⟨reg.entries ++ [(idt, ModuleInfo.empty)]⟩, ModuleInfo.empty)

/-- In-place mutation of the HookSet stored under a key, rendered in
explicit-state style: the Python code mutates the `ModuleInfo` object
returned by `add_module_info`, which is the object stored in the
registry, so the mutation is applied at the key. -/
def ModuleRegistry.update (reg : ModuleRegistry) (idt : String)
    (f : ModuleInfo → ModuleInfo) : ModuleRegistry :=
  ⟨reg.entries.map (fun p => (p.1, if p.1 = idt then f p.2 else p.2))⟩

/-- The error taxonomy of the spec.  `duplicateRegistrationError`
corresponds to the `ValueError("init hook is already registered!")`
raised by `init.__call__`; `unresolvableModuleError` to the import
failure inside `_add_module_info` when the defining module of the
callback cannot be determined. -/
inductive HookError where
  | duplicateRegistrationError
  | unresolvableModuleError
deriving DecidableEq

/-- Embeds `_add_module_info(func)`: resolve the defining module of
the callback and get-or-create its registry entry, returning the
identity key.  An unresolvable module raises before any mutation. -/
def addModuleInfo (reg : ModuleRegistry) (func : Callback) :
    ModuleRegistry × Except HookError String :=
  match func.moduleName with
  | none => (reg, .error .unresolvableModuleError)
  | some m => ((reg.getOrCreate m).1, .ok m)

/-- Embeds `init.__call__`: raises on a second init hook for the same
module, otherwise stores the callback and returns it unchanged. -/
def init_call (reg : ModuleRegistry) (func : Callback) :
    ModuleRegistry × Except HookError Callback :=
  match addModuleInfo reg func with
  | (reg1, .error e) => (reg1, .error e)
  | (reg1, .ok m) =>
    match (reg1.get m).bind ModuleInfo.init_hook with
    | some _ => (reg1, .error .duplicateRegistrationError)
    | none => (reg1.update m (fun i => { i with init_hook := some func }), .ok func)

/-- Embeds `config_changed.__call__` for a decorator built with the
given `option_filter` (`none` when no filter argument was passed):
appends `(self._filter, func)` unconditionally and returns the
callback unchanged. -/
def config_changed_call (optionFilter : Option String) (reg : ModuleRegistry)
    (func : Callback) : ModuleRegistry × Except HookError Callback :=
  match addModuleInfo reg func with
  | (reg1, .error e) => (reg1, .error e)
  | (reg1, .ok m) =>
    (reg1.update m (fun i =>
      { i with config_changed_hooks := i.config_changed_hooks ++ [(optionFilter, func)] }),
     .ok func)

/-- Embeds `before_load.__call__`: appends unconditionally and returns
the callback unchanged. -/
def before_load_call (reg : ModuleRegistry) (func : Callback) :
    ModuleRegistry × Except HookError Callback :=
  match addModuleInfo reg func with
  | (reg1, .error e) => (reg1, .error e)
  | (reg1, .ok m) =>
    (reg1.update m (fun i =>
      { i with before_load_hooks := i.before_load_hooks ++ [func] }), .ok func)

/-- Embeds `load_started.__call__`: appends unconditionally and
returns the callback unchanged. -/
def load_started_call (reg : ModuleRegistry) (func : Callback) :
    ModuleRegistry × Except HookError Callback :=
  match addModuleInfo reg func with
  | (reg1, .error e) => (reg1, .error e)
  | (reg1, .ok m) =>
    (reg1.update m (fun i =>
      { i with load_started_hooks := i.load_started_hooks ++ [func] }), .ok func)

/-- Embeds `load_finished.__call__`: appends unconditionally and
returns the callback unchanged. -/
def load_finished_call (reg : ModuleRegistry) (func : Callback) :
    ModuleRegistry × Except HookError Callback :=
  match addModuleInfo reg func with
  | (reg1, .error e) => (reg1, .error e)
  | (reg1, .ok m) =>
    (reg1.update m (fun i =>
      { i with load_finished_hooks := i.load_finished_hooks ++ [func] }), .ok func)

/-- Modelled from the spec: the config-change filter matching rule
(the matching code lives outside `src/`).  A filter matches a changed
option name iff the filter is absent, or equals the name, or is a
dot-segment-aligned strict ancestor: the name starts with the filter
followed directly by a dot. -/
def filterMatches (optionFilter : Option String) (changedName : String) : Bool :=
  match optionFilter with
  | none => true
  | some f => (f == changedName) || (f.data ++ ['.']).isPrefixOf changedName.data

/-- Modelled from the spec: config-change dispatch for one HookSet
returns the entries of `config_changed_hooks` whose filter matches the
changed option name, in registration order. -/
def dispatchConfigChanged (info : ModuleInfo) (changedName : String) :
    List (Option String × Callback) :=
  info.config_changed_hooks.filter (fun p => filterMatches p.1 changedName)

theorem lookupInfo_append (idt : String) (l l2 : List (String × ModuleInfo)) :
    lookupInfo idt (l ++ l2) =
      match lookupInfo idt l with
      | some v => some v
      | none => lookupInfo idt l2 := by
  induction l with
  | nil => simp [lookupInfo]
  | cons p rest ih =>
    obtain ⟨k, v⟩ := p
    by_cases h : k = idt <;> simp [lookupInfo, h, ih]

theorem lookupInfo_map_update (idt idt2 : String) (f : ModuleInfo → ModuleInfo)
    (l : List (String × ModuleInfo)) :
    lookupInfo idt2 (l.map (fun p => (p.1, if p.1 = idt then f p.2 else p.2))) =
      if idt2 = idt then (lookupInfo idt2 l).map f else lookupInfo idt2 l := by
  induction l with
  | nil => by_cases h : idt2 = idt <;> simp [lookupInfo, h]
  | cons p rest ih =>
    obtain ⟨k, v⟩ := p
    by_cases h : idt2 = idt
    · subst h
      by_cases hk : k = idt2 <;> simp [lookupInfo, hk, ih]
    · by_cases hk : k = idt2
      · subst hk
        simp [lookupInfo, h, ih]
      · simp [lookupInfo, hk, h, ih]

theorem get_update (reg : ModuleRegistry) (idt idt2 : String) (f : ModuleInfo → ModuleInfo) :
    (reg.update idt f).get idt2 =
      if idt2 = idt then (reg.get idt2).map f else reg.get idt2 := by
  simp [ModuleRegistry.get, ModuleRegistry.update, lookupInfo_map_update]

theorem getOrCreate_snd (reg : ModuleRegistry) (idt : String) :
    (reg.getOrCreate idt).2 = (reg.get idt).getD ModuleInfo.empty := by
  unfold ModuleRegistry.getOrCreate
  cases h : reg.get idt <;> simp

theorem get_getOrCreate (reg : ModuleRegistry) (idt idt2 : String) :
    (reg.getOrCreate idt).1.get idt2 =
      if idt2 = idt then some ((reg.get idt).getD ModuleInfo.empty) else reg.get idt2 := by
  unfold ModuleRegistry.getOrCreate
  cases h : reg.get idt with
  | some info =>
    by_cases h2 : idt2 = idt <;> simp [h2, h]
  | none =>
    by_cases h2 : idt2 = idt
    · subst h2
      simp [ModuleRegistry.get, lookupInfo_append] at h ⊢
      simp [h, lookupInfo]
    · have h3 : ¬idt = idt2 := fun hh => h2 hh.symm
      simp [ModuleRegistry.get, lookupInfo_append] at h ⊢
      cases hl : lookupInfo idt2 reg.entries <;> simp [lookupInfo, h2, h3]

theorem getOrCreate_of_get_some (r : ModuleRegistry) (idt : String) (i : ModuleInfo)
    (h : r.get idt = some i) : r.getOrCreate idt = (r, i) := by
  unfold ModuleRegistry.getOrCreate
  rw [h]

/-- C1: a filter matches a changed option name iff the filter is
absent, or the filter string equals the option name, or the filter is
a dot-segment-aligned strict ancestor of the option name (the name is
the filter, then a dot, then a remainder); in particular filter
"bindings" matches "bindings.commands" and "bindings.key_mappings" but
matches neither "bindingsextra.foo" nor "other.bindings". -/
theorem filterMatches_characterization :
    (∀ name : String, filterMatches none name = true) ∧
    (∀ f name : String, filterMatches (some f) name = true ↔
      f = name ∨ ∃ rest : List Char, name.data = f.data ++ '.' :: rest) ∧
    filterMatches (some "bindings") "bindings.commands" = true ∧
    filterMatches (some "bindings") "bindings.key_mappings" = true ∧
    filterMatches (some "bindings") "bindingsextra.foo" = false ∧
    filterMatches (some "bindings") "other.bindings" = false := by
  refine ⟨fun name => rfl, fun f name => ?_, by decide, by decide, by decide, by decide⟩
  simp only [filterMatches, Bool.or_eq_true, beq_iff_eq, List.isPrefixOf_iff_prefix]
  constructor
  · rintro (h | ⟨t, ht⟩)
    · exact Or.inl h
    · exact Or.inr ⟨t, by simpa using ht.symm⟩
  · rintro (h | ⟨rest, hrest⟩)
    · exact Or.inl h
    · exact Or.inr ⟨rest, by simp [hrest]⟩

/-- C2: when a module already has an init hook registered, a second
init registration for that module fails with the duplicate
registration error and leaves the stored HookSet (hence the first
init hook) unchanged. -/
theorem init_call_duplicate (reg : ModuleRegistry) (func g : Callback)
    (m : String) (info : ModuleInfo)
    (hm : func.moduleName = some m)
    (hget : reg.get m = some info)
    (hdup : info.init_hook = some g) :
    (init_call reg func).2 = .error .duplicateRegistrationError ∧
    (init_call reg func).1.get m = some info ∧
    ((init_call reg func).1.get m).bind ModuleInfo.init_hook = some g := by
  have hgoc : reg.getOrCreate m = (reg, info) := by
    unfold ModuleRegistry.getOrCreate
    simp [hget]
  simp [init_call, addModuleInfo, hm, hgoc, hget, hdup]

/-- C2 witness. -/
theorem init_call_duplicate_witness :
    (init_call ⟨[("modA", { ModuleInfo.empty with init_hook := some ⟨1, some "modA"⟩ })]⟩
        ⟨2, some "modA"⟩).2 = .error .duplicateRegistrationError ∧
    (init_call ⟨[("modA", { ModuleInfo.empty with init_hook := some ⟨1, some "modA"⟩ })]⟩
        ⟨2, some "modA"⟩).1.get "modA" =
      some { ModuleInfo.empty with init_hook := some ⟨1, some "modA"⟩ } ∧
    ((init_call ⟨[("modA", { ModuleInfo.empty with init_hook := some ⟨1, some "modA"⟩ })]⟩
        ⟨2, some "modA"⟩).1.get "modA").bind ModuleInfo.init_hook = some ⟨1, some "modA"⟩ :=
  init_call_duplicate _ ⟨2, some "modA"⟩ ⟨1, some "modA"⟩ "modA"
    { ModuleInfo.empty with init_hook := some ⟨1, some "modA"⟩ }
    rfl (by decide) rfl

/-- C3: get-or-create is idempotent in the strong, aliasing sense
rendered in explicit-state style: a second get-or-create with the same
identity returns the same registry and the same HookSet, the returned
HookSet is exactly the one stored under the identity, and a mutation
applied through the identity is visible through a subsequent lookup. -/
theorem getOrCreate_idempotent (reg : ModuleRegistry) (idt : String) :
    (reg.getOrCreate idt).1.getOrCreate idt = ((reg.getOrCreate idt).1, (reg.getOrCreate idt).2) ∧
    (reg.getOrCreate idt).1.get idt = some (reg.getOrCreate idt).2 ∧
    ∀ f : ModuleInfo → ModuleInfo,
      ((reg.getOrCreate idt).1.update idt f).get idt = some (f (reg.getOrCreate idt).2) := by
  have hself : (reg.getOrCreate idt).1.get idt = some (reg.getOrCreate idt).2 := by
    rw [get_getOrCreate, getOrCreate_snd]
    simp
  refine ⟨getOrCreate_of_get_some _ _ _ hself, hself, fun f => ?_⟩
  · rw [get_update, hself]
    simp

theorem config_changed_call_eq (filt : Option String) (reg : ModuleRegistry)
    (func : Callback) (m : String) (hm : func.moduleName = some m) :
    config_changed_call filt reg func =
      ((reg.getOrCreate m).1.update m (fun i =>
        { i with config_changed_hooks := i.config_changed_hooks ++ [(filt, func)] }),
       .ok func) := by
  simp [config_changed_call, addModuleInfo, hm]

theorem config_changed_call_get (filt : Option String) (reg : ModuleRegistry)
    (func : Callback) (m idt2 : String) (hm : func.moduleName = some m) :
    (config_changed_call filt reg func).1.get idt2 =
      if idt2 = m then
        some { (reg.get m).getD ModuleInfo.empty with
               config_changed_hooks :=
                 ((reg.get m).getD ModuleInfo.empty).config_changed_hooks ++ [(filt, func)] }
      else reg.get idt2 := by
  rw [config_changed_call_eq filt reg func m hm]
  by_cases h : idt2 = m
  · subst h
    rw [get_update]
    simp [get_getOrCreate]
  · rw [get_update]
    simp [h, get_getOrCreate]

theorem before_load_call_eq (reg : ModuleRegistry)
    (func : Callback) (m : String) (hm : func.moduleName = some m) :
    before_load_call reg func =
      ((reg.getOrCreate m).1.update m (fun i =>
        { i with before_load_hooks := i.before_load_hooks ++ [func] }), .ok func) := by
  simp [before_load_call, addModuleInfo, hm]

theorem before_load_call_get (reg : ModuleRegistry)
    (func : Callback) (m idt2 : String) (hm : func.moduleName = some m) :
    (before_load_call reg func).1.get idt2 =
      if idt2 = m then
        some { (reg.get m).getD ModuleInfo.empty with
               before_load_hooks :=
                 ((reg.get m).getD ModuleInfo.empty).before_load_hooks ++ [func] }
      else reg.get idt2 := by
  rw [before_load_call_eq reg func m hm]
  by_cases h : idt2 = m
  · subst h
    rw [get_update]
    simp [get_getOrCreate]
  · rw [get_update]
    simp [h, get_getOrCreate]

theorem load_started_call_eq (reg : ModuleRegistry)
    (func : Callback) (m : String) (hm : func.moduleName = some m) :
    load_started_call reg func =
      ((reg.getOrCreate m).1.update m (fun i =>
        { i with load_started_hooks := i.load_started_hooks ++ [func] }), .ok func) := by
  simp [load_started_call, addModuleInfo, hm]

theorem load_started_call_get (reg : ModuleRegistry)
    (func : Callback) (m idt2 : String) (hm : func.moduleName = some m) :
    (load_started_call reg func).1.get idt2 =
      if idt2 = m then
        some { (reg.get m).getD ModuleInfo.empty with
               load_started_hooks :=
                 ((reg.get m).getD ModuleInfo.empty).load_started_hooks ++ [func] }
      else reg.get idt2 := by
  rw [load_started_call_eq reg func m hm]
  by_cases h : idt2 = m
  · subst h
    rw [get_update]
    simp [get_getOrCreate]
  · rw [get_update]
    simp [h, get_getOrCreate]

theorem load_finished_call_eq (reg : ModuleRegistry)
    (func : Callback) (m : String) (hm : func.moduleName = some m) :
    load_finished_call reg func =
      ((reg.getOrCreate m).1.update m (fun i =>
        { i with load_finished_hooks := i.load_finished_hooks ++ [func] }), .ok func) := by
  simp [load_finished_call, addModuleInfo, hm]

theorem load_finished_call_get (reg : ModuleRegistry)
    (func : Callback) (m idt2 : String) (hm : func.moduleName = some m) :
    (load_finished_call reg func).1.get idt2 =
      if idt2 = m then
        some { (reg.get m).getD ModuleInfo.empty with
               load_finished_hooks :=
                 ((reg.get m).getD ModuleInfo.empty).load_finished_hooks ++ [func] }
      else reg.get idt2 := by
  rw [load_finished_call_eq reg func m hm]
  by_cases h : idt2 = m
  · subst h
    rw [get_update]
    simp [get_getOrCreate]
  · rw [get_update]
    simp [h, get_getOrCreate]

theorem init_call_eq_of_free (reg : ModuleRegistry) (func : Callback) (m : String)
    (hm : func.moduleName = some m)
    (hfree : ((reg.get m).getD ModuleInfo.empty).init_hook = none) :
    init_call reg func =
      ((reg.getOrCreate m).1.update m (fun i => { i with init_hook := some func }),
       .ok func) := by
  simp [init_call, addModuleInfo, hm, get_getOrCreate, hfree]

theorem init_call_eq_of_taken (reg : ModuleRegistry) (func g : Callback) (m : String)
    (hm : func.moduleName = some m)
    (htaken : ((reg.get m).getD ModuleInfo.empty).init_hook = some g) :
    init_call reg func = ((reg.getOrCreate m).1, .error .duplicateRegistrationError) := by
  simp [init_call, addModuleInfo, hm, get_getOrCreate, htaken]

theorem init_call_get_of_free (reg : ModuleRegistry) (func : Callback) (m idt2 : String)
    (hm : func.moduleName = some m)
    (hfree : ((reg.get m).getD ModuleInfo.empty).init_hook = none) :
    (init_call reg func).1.get idt2 =
      if idt2 = m then
        some { (reg.get m).getD ModuleInfo.empty with init_hook := some func }
      else reg.get idt2 := by
  rw [init_call_eq_of_free reg func m hm hfree]
  by_cases h : idt2 = m
  · subst h
    rw [get_update]
    simp [get_getOrCreate]
  · rw [get_update]
    simp [h, get_getOrCreate]

/-- C4: config-changed registration appends unconditionally, with no
uniqueness check and no deduplication: starting from a module with no
registry entry, registering hooks H1, H2, H3 with arbitrary filters
(duplicates allowed) leaves the module with exactly the list
[H1, H2, H3] in registration order. -/
theorem config_changed_appends_in_order (reg : ModuleRegistry) (m : String)
    (f1 f2 f3 : Option String) (c1 c2 c3 : Callback)
    (h1 : c1.moduleName = some m) (h2 : c2.moduleName = some m)
    (h3 : c3.moduleName = some m) (hfresh : reg.get m = none) :
    ((config_changed_call f3 (config_changed_call f2
        (config_changed_call f1 reg c1).1 c2).1 c3).1.get m).map
      ModuleInfo.config_changed_hooks = some [(f1, c1), (f2, c2), (f3, c3)] := by
  have s1 : (config_changed_call f1 reg c1).1.get m =
      some { ModuleInfo.empty with config_changed_hooks := [(f1, c1)] } := by
    rw [config_changed_call_get f1 reg c1 m m h1, if_pos rfl, hfresh]
    rfl
  have s2 : (config_changed_call f2 (config_changed_call f1 reg c1).1 c2).1.get m =
      some { ModuleInfo.empty with config_changed_hooks := [(f1, c1), (f2, c2)] } := by
    rw [config_changed_call_get f2 _ c2 m m h2, if_pos rfl, s1]
    rfl
  rw [config_changed_call_get f3 _ c3 m m h3, if_pos rfl, s2]
  rfl

/-- C4 witness: three registrations with duplicate filters and a
duplicate callback from module M yield exactly that three-element
list. -/
theorem config_changed_appends_in_order_witness :
    ((config_changed_call (some "a") (config_changed_call (some "a")
        (config_changed_call none ⟨[]⟩ ⟨1, some "M"⟩).1 ⟨2, some "M"⟩).1 ⟨2, some "M"⟩).1.get
        "M").map ModuleInfo.config_changed_hooks =
      some [(none, ⟨1, some "M"⟩), (some "a", ⟨2, some "M"⟩), (some "a", ⟨2, some "M"⟩)] :=
  config_changed_appends_in_order ⟨[]⟩ "M" none (some "a") (some "a")
    ⟨1, some "M"⟩ ⟨2, some "M"⟩ ⟨2, some "M"⟩ rfl rfl rfl rfl

/-- C10: the filter argument of a config-changed registration is
stored verbatim as the first component of the appended entry, for
every filter value (including the empty string and strings with
leading or trailing dots or mixed case); a registration built with no
filter argument stores the absent filter. -/
theorem config_changed_filter_verbatim (reg : ModuleRegistry) (func : Callback)
    (m : String) (filt : Option String) (hm : func.moduleName = some m) :
    ((config_changed_call filt reg func).1.get m).map ModuleInfo.config_changed_hooks =
      some (((reg.get m).getD ModuleInfo.empty).config_changed_hooks ++ [(filt, func)]) ∧
    (config_changed_call filt reg func).2 = .ok func := by
  constructor
  · rw [config_changed_call_get filt reg func m m hm, if_pos rfl]
    rfl
  · rw [config_changed_call_eq filt reg func m hm]

/-- C10 witness: a filter with leading and trailing dots and mixed
case is stored exactly as passed. -/
theorem config_changed_filter_verbatim_witness :
    ((config_changed_call (some ".Mixed.CASE.") ⟨[]⟩ ⟨7, some "mod"⟩).1.get "mod").map
        ModuleInfo.config_changed_hooks =
      some ((((⟨[]⟩ : ModuleRegistry).get "mod").getD ModuleInfo.empty).config_changed_hooks
        ++ [(some ".Mixed.CASE.", ⟨7, some "mod"⟩)]) ∧
    (config_changed_call (some ".Mixed.CASE.") ⟨[]⟩ ⟨7, some "mod"⟩).2 = .ok ⟨7, some "mod"⟩ :=
  config_changed_filter_verbatim ⟨[]⟩ ⟨7, some "mod"⟩ "mod" (some ".Mixed.CASE.") rfl

/-- C6: every hook-declaration entry point, when registration
succeeds, returns exactly the callback it was given: each call either
returns the input callback unchanged or fails with an error. -/
theorem calls_return_callback_unchanged (reg : ModuleRegistry) (func : Callback)
    (filt : Option String) :
    ((init_call reg func).2 = .ok func ∨ ∃ e, (init_call reg func).2 = .error e) ∧
    ((config_changed_call filt reg func).2 = .ok func ∨
      ∃ e, (config_changed_call filt reg func).2 = .error e) ∧
    ((before_load_call reg func).2 = .ok func ∨
      ∃ e, (before_load_call reg func).2 = .error e) ∧
    ((load_started_call reg func).2 = .ok func ∨
      ∃ e, (load_started_call reg func).2 = .error e) ∧
    ((load_finished_call reg func).2 = .ok func ∨
      ∃ e, (load_finished_call reg func).2 = .error e) := by
  cases hm : func.moduleName with
  | none =>
    simp [init_call, config_changed_call, before_load_call, load_started_call,
      load_finished_call, addModuleInfo, hm]
  | some m =>
    refine ⟨?_, ?_, ?_, ?_, ?_⟩
    · cases hih : ((reg.get m).getD ModuleInfo.empty).init_hook with
      | none =>
        rw [init_call_eq_of_free reg func m hm hih]
        exact Or.inl rfl
      | some g =>
        rw [init_call_eq_of_taken reg func g m hm hih]
        exact Or.inr ⟨_, rfl⟩
    · rw [config_changed_call_eq filt reg func m hm]
      exact Or.inl rfl
    · rw [before_load_call_eq reg func m hm]
      exact Or.inl rfl
    · rw [load_started_call_eq reg func m hm]
      exact Or.inl rfl
    · rw [load_finished_call_eq reg func m hm]
      exact Or.inl rfl

/-- C7: when the defining module of the callback cannot be
determined, every hook-declaration call fails with the unresolvable
module error and leaves the registry untouched: nothing is registered
under any identity. -/
theorem unresolvable_module_fails_fast (reg : ModuleRegistry) (func : Callback)
    (filt : Option String) (hm : func.moduleName = none) :
    init_call reg func = (reg, .error .unresolvableModuleError) ∧
    config_changed_call filt reg func = (reg, .error .unresolvableModuleError) ∧
    before_load_call reg func = (reg, .error .unresolvableModuleError) ∧
    load_started_call reg func = (reg, .error .unresolvableModuleError) ∧
    load_finished_call reg func = (reg, .error .unresolvableModuleError) := by
  simp [init_call, config_changed_call, before_load_call, load_started_call,
    load_finished_call, addModuleInfo, hm]

/-- C7 witness. -/
theorem unresolvable_module_fails_fast_witness :
    init_call ⟨[]⟩ ⟨3, none⟩ = (⟨[]⟩, .error .unresolvableModuleError) ∧
    config_changed_call (some "x") ⟨[]⟩ ⟨3, none⟩ = (⟨[]⟩, .error .unresolvableModuleError) ∧
    before_load_call ⟨[]⟩ ⟨3, none⟩ = (⟨[]⟩, .error .unresolvableModuleError) ∧
    load_started_call ⟨[]⟩ ⟨3, none⟩ = (⟨[]⟩, .error .unresolvableModuleError) ∧
    load_finished_call ⟨[]⟩ ⟨3, none⟩ = (⟨[]⟩, .error .unresolvableModuleError) :=
  unresolvable_module_fails_fast ⟨[]⟩ ⟨3, none⟩ (some "x") rfl

/-- C5: config-change dispatch returns exactly the subsequence of the
config-changed hook list whose filter matches the changed option name,
in registration order: the result is a sublist of the registered list,
an entry belongs to the result iff it is registered and its filter
matches, and the result has exactly as many entries as there are
matching registered entries.  The spec scenario holds: with a
no-filter hook and a "content.javascript" hook, the change
"content.javascript.enabled" fires both and "colors.foo" fires only
the no-filter hook. -/
theorem dispatch_exact_matching_subsequence :
    (∀ (info : ModuleInfo) (name : String),
      (dispatchConfigChanged info name).Sublist info.config_changed_hooks ∧
      (∀ p, p ∈ dispatchConfigChanged info name ↔
        p ∈ info.config_changed_hooks ∧ filterMatches p.1 name = true) ∧
      (dispatchConfigChanged info name).length =
        info.config_changed_hooks.countP (fun p => filterMatches p.1 name)) ∧
    dispatchConfigChanged
        ⟨none, [(none, ⟨1, some "M"⟩), (some "content.javascript", ⟨2, some "M"⟩)], [], [], []⟩
        "content.javascript.enabled" =
      [(none, ⟨1, some "M"⟩), (some "content.javascript", ⟨2, some "M"⟩)] ∧
    dispatchConfigChanged
        ⟨none, [(none, ⟨1, some "M"⟩), (some "content.javascript", ⟨2, some "M"⟩)], [], [], []⟩
        "colors.foo" = [(none, ⟨1, some "M"⟩)] := by
  refine ⟨fun info name =>
    ⟨List.filter_sublist _, fun p => List.mem_filter, ?_⟩, by decide, by decide⟩
  rw [dispatchConfigChanged]
  exact (List.countP_eq_length_filter _ _).symm

/-- C8: module-identity resolution is a stable function of the
defining module: callbacks from the same module resolve to the same
identity, callbacks from different modules resolve to different
identities, and init hooks registered from two different fresh modules
land in the two distinct HookSets, each holding its own callback. -/
theorem module_identity_resolution (reg : ModuleRegistry) (c1 c2 : Callback)
    (mA mB : String) (h1 : c1.moduleName = some mA) (h2 : c2.moduleName = some mB) :
    (mA = mB → (addModuleInfo reg c1).2 = (addModuleInfo reg c2).2) ∧
    (mA ≠ mB → (addModuleInfo reg c1).2 ≠ (addModuleInfo reg c2).2) ∧
    (mA ≠ mB → reg.get mA = none → reg.get mB = none →
      ((init_call (init_call reg c1).1 c2).1.get mA).bind ModuleInfo.init_hook = some c1 ∧
      ((init_call (init_call reg c1).1 c2).1.get mB).bind ModuleInfo.init_hook = some c2) := by
  refine ⟨fun h => ?_, fun h => ?_, fun hne hA hB => ?_⟩
  · simp [addModuleInfo, h1, h2, h]
  · simp [addModuleInfo, h1, h2]
    exact h
  · have r1A : (init_call reg c1).1.get mA =
        some { ModuleInfo.empty with init_hook := some c1 } := by
      rw [init_call_get_of_free reg c1 mA mA h1 (by rw [hA]; rfl), if_pos rfl, hA]
      rfl
    have r1B : (init_call reg c1).1.get mB = none := by
      rw [init_call_get_of_free reg c1 mA mB h1 (by rw [hA]; rfl),
        if_neg (fun hh => hne hh.symm)]
      exact hB
    have r2B : (init_call (init_call reg c1).1 c2).1.get mB =
        some { ModuleInfo.empty with init_hook := some c2 } := by
      rw [init_call_get_of_free _ c2 mB mB h2 (by rw [r1B]; rfl), if_pos rfl, r1B]
      rfl
    have r2A : (init_call (init_call reg c1).1 c2).1.get mA =
        some { ModuleInfo.empty with init_hook := some c1 } := by
      rw [init_call_get_of_free _ c2 mB mA h2 (by rw [r1B]; rfl), if_neg hne]
      exact r1A
    rw [r2A, r2B]
    exact ⟨rfl, rfl⟩

/-- C8 witness: two init hooks from fresh modules A and B end up in
distinct HookSets, each holding its own callback. -/
theorem module_identity_resolution_witness :
    ((init_call (init_call ⟨[]⟩ ⟨1, some "A"⟩).1 ⟨2, some "B"⟩).1.get "A").bind
        ModuleInfo.init_hook = some ⟨1, some "A"⟩ ∧
    ((init_call (init_call ⟨[]⟩ ⟨1, some "A"⟩).1 ⟨2, some "B"⟩).1.get "B").bind
        ModuleInfo.init_hook = some ⟨2, some "B"⟩ :=
  (module_identity_resolution ⟨[]⟩ ⟨1, some "A"⟩ ⟨2, some "B"⟩ "A" "B" rfl rfl).2.2
    (by decide) rfl rfl

/-- C9: every registration call, successful or failing, mutates at
most the HookSet of the defining module of the callback, and within
that HookSet only the field of the registered event category: when the
module is unresolvable the registry is untouched; every other module
keeps its lookup result; and the own-module HookSet after the call
equals the previous one (or a fresh empty one) on all fields other
than the one registered. -/
theorem registration_frame (reg : ModuleRegistry) (func : Callback)
    (filt : Option String) :
    (func.moduleName = none →
      (init_call reg func).1 = reg ∧
      (config_changed_call filt reg func).1 = reg ∧
      (before_load_call reg func).1 = reg ∧
      (load_started_call reg func).1 = reg ∧
      (load_finished_call reg func).1 = reg) ∧
    (∀ m m2 : String, func.moduleName = some m → m2 ≠ m →
      (init_call reg func).1.get m2 = reg.get m2 ∧
      (config_changed_call filt reg func).1.get m2 = reg.get m2 ∧
      (before_load_call reg func).1.get m2 = reg.get m2 ∧
      (load_started_call reg func).1.get m2 = reg.get m2 ∧
      (load_finished_call reg func).1.get m2 = reg.get m2) ∧
    (∀ m : String, func.moduleName = some m →
      (∃ i, (init_call reg func).1.get m = some i ∧
        i.config_changed_hooks = ((reg.get m).getD ModuleInfo.empty).config_changed_hooks ∧
        i.before_load_hooks = ((reg.get m).getD ModuleInfo.empty).before_load_hooks ∧
        i.load_started_hooks = ((reg.get m).getD ModuleInfo.empty).load_started_hooks ∧
        i.load_finished_hooks = ((reg.get m).getD ModuleInfo.empty).load_finished_hooks) ∧
      (∃ i, (config_changed_call filt reg func).1.get m = some i ∧
        i.init_hook = ((reg.get m).getD ModuleInfo.empty).init_hook ∧
        i.before_load_hooks = ((reg.get m).getD ModuleInfo.empty).before_load_hooks ∧
        i.load_started_hooks = ((reg.get m).getD ModuleInfo.empty).load_started_hooks ∧
        i.load_finished_hooks = ((reg.get m).getD ModuleInfo.empty).load_finished_hooks) ∧
      (∃ i, (before_load_call reg func).1.get m = some i ∧
        i.init_hook = ((reg.get m).getD ModuleInfo.empty).init_hook ∧
        i.config_changed_hooks = ((reg.get m).getD ModuleInfo.empty).config_changed_hooks ∧
        i.load_started_hooks = ((reg.get m).getD ModuleInfo.empty).load_started_hooks ∧
        i.load_finished_hooks = ((reg.get m).getD ModuleInfo.empty).load_finished_hooks) ∧
      (∃ i, (load_started_call reg func).1.get m = some i ∧
        i.init_hook = ((reg.get m).getD ModuleInfo.empty).init_hook ∧
        i.config_changed_hooks = ((reg.get m).getD ModuleInfo.empty).config_changed_hooks ∧
        i.before_load_hooks = ((reg.get m).getD ModuleInfo.empty).before_load_hooks ∧
        i.load_finished_hooks = ((reg.get m).getD ModuleInfo.empty).load_finished_hooks) ∧
      (∃ i, (load_finished_call reg func).1.get m = some i ∧
        i.init_hook = ((reg.get m).getD ModuleInfo.empty).init_hook ∧
        i.config_changed_hooks = ((reg.get m).getD ModuleInfo.empty).config_changed_hooks ∧
        i.before_load_hooks = ((reg.get m).getD ModuleInfo.empty).before_load_hooks ∧
        i.load_started_hooks = ((reg.get m).getD ModuleInfo.empty).load_started_hooks)) := by
  refine ⟨fun hm => ?_, fun m m2 hm hne => ?_, fun m hm => ?_⟩
  · simp [init_call, config_changed_call, before_load_call, load_started_call,
      load_finished_call, addModuleInfo, hm]
  · refine ⟨?_, ?_, ?_, ?_, ?_⟩
    · cases hih : ((reg.get m).getD ModuleInfo.empty).init_hook with
      | none => rw [init_call_get_of_free reg func m m2 hm hih, if_neg hne]
      | some g =>
        rw [init_call_eq_of_taken reg func g m hm hih]
        rw [get_getOrCreate, if_neg hne]
    · rw [config_changed_call_get filt reg func m m2 hm, if_neg hne]
    · rw [before_load_call_get reg func m m2 hm, if_neg hne]
    · rw [load_started_call_get reg func m m2 hm, if_neg hne]
    · rw [load_finished_call_get reg func m m2 hm, if_neg hne]
  · refine ⟨?_, ?_, ?_, ?_, ?_⟩
    · cases hih : ((reg.get m).getD ModuleInfo.empty).init_hook with
      | none =>
        rw [init_call_get_of_free reg func m m hm hih, if_pos rfl]
        exact ⟨_, rfl, rfl, rfl, rfl, rfl⟩
      | some g =>
        rw [init_call_eq_of_taken reg func g m hm hih]
        rw [get_getOrCreate, if_pos rfl]
        exact ⟨_, rfl, rfl, rfl, rfl, rfl⟩
    · rw [config_changed_call_get filt reg func m m hm, if_pos rfl]
      exact ⟨_, rfl, rfl, rfl, rfl, rfl⟩
    · rw [before_load_call_get reg func m m hm, if_pos rfl]
      exact ⟨_, rfl, rfl, rfl, rfl, rfl⟩
    · rw [load_started_call_get reg func m m hm, if_pos rfl]
      exact ⟨_, rfl, rfl, rfl, rfl, rfl⟩
    · rw [load_finished_call_get reg func m m hm, if_pos rfl]
      exact ⟨_, rfl, rfl, rfl, rfl, rfl⟩

/-- C9 witness: a config-changed registration from module A neither
touches module B nor any field of the HookSet of A other than the
config-changed list. -/
theorem registration_frame_witness :
    ((config_changed_call (some "x") ⟨[]⟩ ⟨1, some "A"⟩).1.get "B" =
      (⟨[]⟩ : ModuleRegistry).get "B") ∧
    (∃ i, (config_changed_call (some "x") ⟨[]⟩ ⟨1, some "A"⟩).1.get "A" = some i ∧
      i.init_hook = (((⟨[]⟩ : ModuleRegistry).get "A").getD ModuleInfo.empty).init_hook ∧
      i.before_load_hooks =
        (((⟨[]⟩ : ModuleRegistry).get "A").getD ModuleInfo.empty).before_load_hooks ∧
      i.load_started_hooks =
        (((⟨[]⟩ : ModuleRegistry).get "A").getD ModuleInfo.empty).load_started_hooks ∧
      i.load_finished_hooks =
        (((⟨[]⟩ : ModuleRegistry).get "A").getD ModuleInfo.empty).load_finished_hooks) :=
  ⟨((registration_frame ⟨[]⟩ ⟨1, some "A"⟩ (some "x")).2.1 "A" "B" rfl (by decide)).2.1,
   ((registration_frame ⟨[]⟩ ⟨1, some "A"⟩ (some "x")).2.2 "A" rfl).2.1⟩

end HookRegistry
